/-
  Verification of the authentication / session layer of proton-api-rs.

  The definitions below are a shallow embedding of the Rust source:
  * `src/clientv2/session.rs` — login validation, human-verification error
    mapping, session refresh, and the authenticated-request wrapper;
  * `src/http/response.rs` — the four `FromResponse` decoders in their
    blocking and suspension-based forms;
  * `src/requests/messages.rs` / `src/domain/message.rs` — the message-list
    request builder and its filter.

  Types that the session module consumes from repository modules that are
  not part of the sources at hand (the `http` sequence combinators, the
  `UserAuth` credential record, the API error payload) are modelled from
  the specification's description of them; each such definition carries a
  doc comment saying so.
-/
import Mathlib

/-! ## Data model -/

/-- Modelled from the spec: the human-verification challenge payload an API
error may carry (an anti-abuse challenge the server may require); the domain
module defining it is not among the sources at hand. -/
structure HumanVerification where
  methods : List String
  token : String
  deriving Repr, DecidableEq

/-- Modelled from the spec: the structured server error (`APIError`) carrying a
status code and optional machine-readable payload, e.g. a human-verification
challenge; `requests/errors.rs` is not among the sources at hand. -/
structure APIError where
  http_code : Nat
  hv_details : Option HumanVerification
  deriving Repr, DecidableEq

/-- Modelled from the spec: `try_get_human_verification_details` yields the
machine-readable human-verification payload of an API error when present. -/
def APIError.try_get_human_verification_details (e : APIError) :
    Option HumanVerification :=
  e.hv_details

/-- Modelled from the spec error taxonomy: `http::Error` is either a
structured `APIError` or a transport/IO failure. -/
inductive HttpError where
  | API (e : APIError)
  | Transport (msg : String)
  deriving Repr, DecidableEq

/-- `TwoFactorAuth` from the domain module (not among the sources at hand);
only the `FIDO2` variant is mentioned by `session.rs`. -/
inductive TwoFactorAuth where
  | FIDO2
  deriving Repr, DecidableEq

/-- `TFAStatus`, the server-reported second-factor status; its four variants
are those matched in `validate_server_proof` (session.rs, lines 362-367). -/
inductive TFAStatus where
  | None
  | Totp
  | FIDO2
  | TotpOrFIDO2
  deriving Repr, DecidableEq

/-- The `tfa` field of an auth response, of which `validate_server_proof`
reads `enabled`. -/
structure TwoFA where
  enabled : TFAStatus
  deriving Repr, DecidableEq

/-- The server's answer to the proof submission: the server proof, the
second-factor status, and the credential triple the session is built from. -/
structure AuthResponse where
  server_proof : String
  tfa : TwoFA
  uid : String
  access_token : String
  refresh_token : String
  deriving Repr, DecidableEq

/-- The server's answer to a refresh request: the fresh credential triple. -/
structure AuthRefreshResponse where
  uid : String
  access_token : String
  refresh_token : String
  deriving Repr, DecidableEq

/-- Modelled from the spec: the `Credentials` record `UserAuth`
({ user identifier, access token, refresh token }, each secret); the module
defining it is not among the sources at hand. -/
structure UserAuth where
  uid : String
  access_token : String
  refresh_token : String
  deriving Repr, DecidableEq

/-- Modelled from the spec: credentials built from an auth response
(`UserAuth::from_auth_response`). -/
def UserAuth.from_auth_response (r : AuthResponse) : UserAuth :=
  { uid := r.uid
    access_token := r.access_token
    refresh_token := r.refresh_token }

/-- Modelled from the spec ("a refresh replaces all three fields together"):
credentials built from a refresh response
(`UserAuth::from_auth_refresh_response`). -/
def UserAuth.from_auth_refresh_response (r : AuthRefreshResponse) : UserAuth :=
  { uid := r.uid
    access_token := r.access_token
    refresh_token := r.refresh_token }

/-- The client-side SRP proof record (`SRPProofB64` of the external SRP
engine): client ephemeral, client proof, and the locally computed expected
server proof. -/
structure SRPProofB64 where
  client_ephemeral : String
  client_proof : String
  expected_server_proof : String
  deriving Repr, DecidableEq

/-- The external SRP engine's `compare_server_proof`: the server's returned
proof is compared against the locally computed expected server proof. -/
def SRPProofB64.compare_server_proof (p : SRPProofB64) (sp : String) : Bool :=
  p.expected_server_proof == sp

/-- `LoginError` (session.rs, lines 18-34). -/
inductive LoginError where
  | Request (e : HttpError)
  | ServerProof (msg : String)
  | Unsupported2FA (t : TwoFactorAuth)
  | HumanVerificationRequired (hv : HumanVerification)
  | SRPProof (msg : String)
  deriving Repr, DecidableEq

/-- An authenticated `Session` as a value: the content of its credentials
cell. (Handle sharing and allocation are modelled separately, below.) -/
structure Session where
  user_auth : UserAuth
  deriving Repr, DecidableEq

/-- `TotpSession`: a pending-2FA wrapper around a session. -/
structure TotpSession where
  session : Session
  deriving Repr, DecidableEq

/-- `SessionType` (session.rs, lines 51-55). -/
inductive SessionType where
  | Authenticated (s : Session)
  | AwaitingTotp (s : TotpSession)
  deriving Repr, DecidableEq

/-! ## validate_server_proof (session.rs, lines 347-368) -/

/-- `validate_server_proof`: reject on proof mismatch, otherwise branch on the
reported second-factor status. -/
def validate_server_proof (proof : SRPProofB64) (auth_response : AuthResponse) :
    Except LoginError SessionType :=
  if !proof.compare_server_proof auth_response.server_proof then
    .error (.ServerProof "Server Proof does not match")
  else
    let tfa_enabled := auth_response.tfa.enabled
    let user := UserAuth.from_auth_response auth_response
    let session : Session := ⟨user⟩
    match tfa_enabled with
    | .None => .ok (.Authenticated session)
    | .Totp => .ok (.AwaitingTotp ⟨session⟩)
    | .FIDO2 => .error (.Unsupported2FA .FIDO2)
    | .TotpOrFIDO2 => .ok (.AwaitingTotp ⟨session⟩)

/-! ## Theorems for C1 and C2 -/

/-- C1: whenever the server's returned proof does not match the locally
computed expected server proof, `validate_server_proof` returns the
`ServerProof` login error — in particular it never returns an `ok` value
(neither `Authenticated` nor `AwaitingTotp`) — for every reported
second-factor status. -/
theorem validate_server_proof_mismatch_never_authenticates
    (proof : SRPProofB64) (resp : AuthResponse)
    (h : proof.compare_server_proof resp.server_proof = false) :
    validate_server_proof proof resp
      = .error (.ServerProof "Server Proof does not match")
    ∧ ∀ st : SessionType, validate_server_proof proof resp ≠ .ok st := by
  constructor
  · simp [validate_server_proof, h]
  · intro st
    simp [validate_server_proof, h]

/-- Witness for C1: at a concrete mismatching proof the error is observed. -/
theorem validate_server_proof_mismatch_witness :
    validate_server_proof
        ⟨"ce", "cp", "expected"⟩
        ⟨"other", ⟨.None⟩, "u", "a", "r"⟩
      = .error (.ServerProof "Server Proof does not match")
    ∧ validate_server_proof
          ⟨"ce", "cp", "expected"⟩
          ⟨"other", ⟨.None⟩, "u", "a", "r"⟩
        ≠ .ok (.Authenticated ⟨⟨"u", "a", "r"⟩⟩) :=
  ⟨(validate_server_proof_mismatch_never_authenticates
      ⟨"ce", "cp", "expected"⟩
      ⟨"other", ⟨.None⟩, "u", "a", "r"⟩
      (by decide)).1,
   (validate_server_proof_mismatch_never_authenticates
      ⟨"ce", "cp", "expected"⟩
      ⟨"other", ⟨.None⟩, "u", "a", "r"⟩
      (by decide)).2 (.Authenticated ⟨⟨"u", "a", "r"⟩⟩)⟩

/-- C2: when the server proof matches, `validate_server_proof` branches on
the reported second-factor status exactly as: `None` yields
`Authenticated`; `Totp` yields `AwaitingTotp`; `TotpOrFIDO2` yields
`AwaitingTotp` (never an error); `FIDO2` yields the `Unsupported2FA`
error. -/
theorem validate_server_proof_branch_table
    (proof : SRPProofB64) (resp : AuthResponse)
    (h : proof.compare_server_proof resp.server_proof = true) :
    (resp.tfa.enabled = .None →
      validate_server_proof proof resp
        = .ok (.Authenticated ⟨UserAuth.from_auth_response resp⟩))
    ∧ (resp.tfa.enabled = .Totp →
      validate_server_proof proof resp
        = .ok (.AwaitingTotp ⟨⟨UserAuth.from_auth_response resp⟩⟩))
    ∧ (resp.tfa.enabled = .TotpOrFIDO2 →
      validate_server_proof proof resp
        = .ok (.AwaitingTotp ⟨⟨UserAuth.from_auth_response resp⟩⟩))
    ∧ (resp.tfa.enabled = .FIDO2 →
      validate_server_proof proof resp
        = .error (.Unsupported2FA .FIDO2)) := by
  refine ⟨?_, ?_, ?_, ?_⟩ <;> intro htfa <;>
    simp [validate_server_proof, h, htfa]

/-- Witness for C2: the four branches evaluated at concrete matching
responses. -/
theorem validate_server_proof_branch_table_witness :
    validate_server_proof ⟨"ce", "cp", "sp"⟩ ⟨"sp", ⟨.None⟩, "u", "a", "r"⟩
        = .ok (.Authenticated ⟨⟨"u", "a", "r"⟩⟩)
    ∧ validate_server_proof ⟨"ce", "cp", "sp"⟩ ⟨"sp", ⟨.Totp⟩, "u", "a", "r"⟩
        = .ok (.AwaitingTotp ⟨⟨⟨"u", "a", "r"⟩⟩⟩)
    ∧ validate_server_proof ⟨"ce", "cp", "sp"⟩
          ⟨"sp", ⟨.TotpOrFIDO2⟩, "u", "a", "r"⟩
        = .ok (.AwaitingTotp ⟨⟨⟨"u", "a", "r"⟩⟩⟩)
    ∧ validate_server_proof ⟨"ce", "cp", "sp"⟩ ⟨"sp", ⟨.FIDO2⟩, "u", "a", "r"⟩
        = .error (.Unsupported2FA .FIDO2) :=
  ⟨(validate_server_proof_branch_table ⟨"ce", "cp", "sp"⟩
      ⟨"sp", ⟨.None⟩, "u", "a", "r"⟩ (by decide)).1 rfl,
   (validate_server_proof_branch_table ⟨"ce", "cp", "sp"⟩
      ⟨"sp", ⟨.Totp⟩, "u", "a", "r"⟩ (by decide)).2.1 rfl,
   (validate_server_proof_branch_table ⟨"ce", "cp", "sp"⟩
      ⟨"sp", ⟨.TotpOrFIDO2⟩, "u", "a", "r"⟩ (by decide)).2.2.1 rfl,
   (validate_server_proof_branch_table ⟨"ce", "cp", "sp"⟩
      ⟨"sp", ⟨.FIDO2⟩, "u", "a", "r"⟩ (by decide)).2.2.2 rfl⟩

/-! ## wrap_session_request (session.rs, lines 445-483)

The sequence combinators (`chain_err`, `chain`) live in an `http` module that
is not among the sources at hand; their semantics are modelled from the
spec: `recover(handler)` intercepts an error, and the handler either
re-raises it or returns a substitute sequence whose outcome becomes the
overall outcome; `chain` short-circuits on a prior error. The transport is
abstracted as two functions: one executing the wrapped descriptor's request
built against given credentials, one executing a refresh request. -/

/-- The observable outcome of one `wrap_session_request` run: the value or
error delivered to the caller, the final content of the credentials cell,
and how many times the original request and the refresh request were
executed. -/
structure WrapResult (Out : Type) where
  result : Except HttpError Out
  creds : UserAuth
  originalCalls : Nat
  refreshCalls : Nat
  deriving Repr

/-- The expiry test of the `chain_err` handler (session.rs, lines 458-459):
only a structured API error with HTTP code 401 triggers a refresh. -/
def isUnauthorized (e : HttpError) : Bool :=
  match e with
  | .API a => a.http_code == 401
  | .Transport _ => false

/-- `wrap_session_request`: build and execute the original request with the
current credentials; on an API-401 error, execute a refresh request built
from the current credentials, on its success replace the credentials cell
with the triple from the refresh response and re-execute the original
request once with the fresh credentials; every other error, and any
failure of the refresh or of the retried request, is delivered as-is. -/
def wrap_session_request {Out : Type}
    (execOriginal : UserAuth → Except HttpError Out)
    (execRefresh : UserAuth → Except HttpError AuthRefreshResponse)
    (creds : UserAuth) : WrapResult Out :=
  match execOriginal creds with
  | .ok v => ⟨.ok v, creds, 1, 0⟩
  | .error e =>
    if isUnauthorized e then
      match execRefresh creds with
      | .error re => ⟨.error re, creds, 1, 1⟩
      | .ok resp =>
        let creds' := UserAuth.from_auth_refresh_response resp
        ⟨execOriginal creds', creds', 2, 1⟩
    else
      ⟨.error e, creds, 1, 0⟩

/-! ## Theorems for C3, C4 and C5 -/

/-- C3 counterexample: against a transport that answers every request —
including the refresh request — with an API error of HTTP code 401, the
original request is executed exactly once, not twice: the refresh fails
with the 401 error, so the retry never runs and the refresh's error is
returned. -/
theorem wrap_always_401_executes_original_once :
    (@wrap_session_request Unit
        (fun _ => .error (.API ⟨401, none⟩))
        (fun _ => .error (.API ⟨401, none⟩))
        ⟨"u", "a", "r"⟩).originalCalls = 1
    ∧ ¬ (@wrap_session_request Unit
        (fun _ => .error (.API ⟨401, none⟩))
        (fun _ => .error (.API ⟨401, none⟩))
        ⟨"u", "a", "r"⟩).originalCalls = 2
    ∧ (@wrap_session_request Unit
        (fun _ => .error (.API ⟨401, none⟩))
        (fun _ => .error (.API ⟨401, none⟩))
        ⟨"u", "a", "r"⟩).result = .error (.API ⟨401, none⟩) := by
  refine ⟨rfl, ?_, rfl⟩
  decide

/-- C3 (amended): at most one retry ever occurs per wrap invocation — the
original request is executed at most twice for every transport; when every
execution of the original request yields an API-401 error but the refresh
succeeds, the original request is executed exactly twice (original plus
one retry, with one refresh in between) and the 401 error is returned;
when the refresh itself fails, the original request is executed exactly
once and the refresh's error is returned. -/
theorem wrap_at_most_one_retry {Out : Type}
    (execOriginal : UserAuth → Except HttpError Out)
    (execRefresh : UserAuth → Except HttpError AuthRefreshResponse)
    (creds : UserAuth) :
    (wrap_session_request execOriginal execRefresh creds).originalCalls ≤ 2
    ∧ (∀ a resp,
        (∀ c, execOriginal c = .error (.API a)) → a.http_code = 401 →
        execRefresh creds = .ok resp →
        (wrap_session_request execOriginal execRefresh creds).originalCalls = 2
        ∧ (wrap_session_request execOriginal execRefresh creds).refreshCalls = 1
        ∧ (wrap_session_request execOriginal execRefresh creds).result
            = .error (.API a))
    ∧ (∀ a re,
        (∀ c, execOriginal c = .error (.API a)) → a.http_code = 401 →
        execRefresh creds = .error re →
        (wrap_session_request execOriginal execRefresh creds).originalCalls = 1
        ∧ (wrap_session_request execOriginal execRefresh creds).result
            = .error re) := by
  refine ⟨?_, ?_, ?_⟩
  · unfold wrap_session_request
    cases execOriginal creds with
    | ok v => simp
    | error e =>
      by_cases h : isUnauthorized e = true
      · simp only [h, if_pos]
        cases execRefresh creds <;> simp
      · simp only [h]
        simp
  · intro a resp hOrig hCode hRef
    unfold wrap_session_request
    simp [hOrig, hRef, isUnauthorized, hCode]
  · intro a re hOrig hCode hRef
    unfold wrap_session_request
    simp [hOrig, hRef, isUnauthorized, hCode]

/-- Witness for C3 (amended): a transport whose original request always
fails with 401 and whose refresh succeeds drives exactly two executions of
the original request and one refresh. -/
theorem wrap_at_most_one_retry_witness :
    (@wrap_session_request Unit
        (fun _ => .error (.API ⟨401, none⟩))
        (fun _ => .ok ⟨"u2", "a2", "r2"⟩)
        ⟨"u", "a", "r"⟩).originalCalls = 2
    ∧ (@wrap_session_request Unit
        (fun _ => .error (.API ⟨401, none⟩))
        (fun _ => .ok ⟨"u2", "a2", "r2"⟩)
        ⟨"u", "a", "r"⟩).refreshCalls = 1
    ∧ (@wrap_session_request Unit
        (fun _ => .error (.API ⟨401, none⟩))
        (fun _ => .ok ⟨"u2", "a2", "r2"⟩)
        ⟨"u", "a", "r"⟩).result = .error (.API ⟨401, none⟩) :=
  (wrap_at_most_one_retry
      (fun _ => .error (.API ⟨401, none⟩))
      (fun _ => .ok ⟨"u2", "a2", "r2"⟩)
      ⟨"u", "a", "r"⟩).2.1
    ⟨401, none⟩ ⟨"u2", "a2", "r2"⟩ (fun _ => rfl) rfl rfl

/-- C4: the credentials cell is only ever mutated by a single full
replacement after a successful refresh response: a wrap run either leaves
the credential triple exactly as it was, or replaces it with the triple
built from the refresh response; and `from_auth_refresh_response` replaces
all three fields together from that response. Since the replacement is one
atomic state update, no intermediate mixture of old and new fields exists
to be observed. -/
theorem wrap_credentials_atomic_replacement {Out : Type}
    (execOriginal : UserAuth → Except HttpError Out)
    (execRefresh : UserAuth → Except HttpError AuthRefreshResponse)
    (creds : UserAuth) :
    ((wrap_session_request execOriginal execRefresh creds).creds = creds
      ∨ ∃ resp, execRefresh creds = .ok resp
          ∧ (wrap_session_request execOriginal execRefresh creds).creds
              = UserAuth.from_auth_refresh_response resp)
    ∧ ∀ resp : AuthRefreshResponse,
        (UserAuth.from_auth_refresh_response resp).uid = resp.uid
        ∧ (UserAuth.from_auth_refresh_response resp).access_token
            = resp.access_token
        ∧ (UserAuth.from_auth_refresh_response resp).refresh_token
            = resp.refresh_token := by
  refine ⟨?_, fun resp => ⟨rfl, rfl, rfl⟩⟩
  unfold wrap_session_request
  cases execOriginal creds with
  | ok v => left; rfl
  | error e =>
    by_cases h : isUnauthorized e = true
    · simp only [h, if_pos]
      cases hr : execRefresh creds with
      | error re => left; rfl
      | ok resp => right; exact ⟨resp, rfl, rfl⟩
    · dsimp only
      rw [if_neg h]
      left; rfl

/-- C5: every error other than an API error with HTTP code 401 is delivered
to the caller unmodified; a failure of the refresh request is delivered
unmodified; and the outcome of the single retried request — success or
failure alike — is delivered unmodified (never converted to a success). -/
theorem wrap_error_propagation {Out : Type}
    (execOriginal : UserAuth → Except HttpError Out)
    (execRefresh : UserAuth → Except HttpError AuthRefreshResponse)
    (creds : UserAuth) :
    (∀ e, execOriginal creds = .error e → isUnauthorized e = false →
      (wrap_session_request execOriginal execRefresh creds).result = .error e)
    ∧ (∀ a re, execOriginal creds = .error (.API a) → a.http_code = 401 →
        execRefresh creds = .error re →
        (wrap_session_request execOriginal execRefresh creds).result
          = .error re)
    ∧ (∀ a resp, execOriginal creds = .error (.API a) → a.http_code = 401 →
        execRefresh creds = .ok resp →
        (wrap_session_request execOriginal execRefresh creds).result
          = execOriginal (UserAuth.from_auth_refresh_response resp)) := by
  refine ⟨?_, ?_, ?_⟩
  · intro e hOrig hNot
    unfold wrap_session_request
    simp [hOrig, hNot]
  · intro a re hOrig hCode hRef
    unfold wrap_session_request
    simp [hOrig, hRef, isUnauthorized, hCode]
  · intro a resp hOrig hCode hRef
    unfold wrap_session_request
    simp [hOrig, hRef, isUnauthorized, hCode]

/-- Witness for C5: a transport error is returned verbatim; a refresh
failure is returned verbatim; a retried request's failure is returned
verbatim. -/
theorem wrap_error_propagation_witness :
    (@wrap_session_request Unit
        (fun _ => .error (.Transport "io"))
        (fun _ => .ok ⟨"u2", "a2", "r2"⟩)
        ⟨"u", "a", "r"⟩).result = .error (.Transport "io")
    ∧ (@wrap_session_request Unit
        (fun _ => .error (.API ⟨401, none⟩))
        (fun _ => .error (.Transport "refresh down"))
        ⟨"u", "a", "r"⟩).result = .error (.Transport "refresh down")
    ∧ (@wrap_session_request Unit
        (fun _ => .error (.API ⟨401, none⟩))
        (fun _ => .ok ⟨"u2", "a2", "r2"⟩)
        ⟨"u", "a", "r"⟩).result = .error (.API ⟨401, none⟩) :=
  ⟨(wrap_error_propagation
      (fun _ => .error (.Transport "io"))
      (fun _ => .ok ⟨"u2", "a2", "r2"⟩)
      ⟨"u", "a", "r"⟩).1 (.Transport "io") rfl rfl,
   (wrap_error_propagation
      (fun _ => .error (.API ⟨401, none⟩))
      (fun _ => .error (.Transport "refresh down"))
      ⟨"u", "a", "r"⟩).2.1 ⟨401, none⟩ (.Transport "refresh down") rfl rfl rfl,
   (wrap_error_propagation
      (fun _ => .error (.API ⟨401, none⟩))
      (fun _ => .ok ⟨"u2", "a2", "r2"⟩)
      ⟨"u", "a", "r"⟩).2.2 ⟨401, none⟩ ⟨"u2", "a2", "r2"⟩ rfl rfl rfl⟩

/-! ## Login pipeline and human-verification mapping
(session.rs, lines 370-443)

The sequence combinators are modelled from the spec: `map(f)` transforms a
success value and lets errors pass through untouched (an `http::Error`
passing into a `LoginError`-typed sequence is wrapped as
`LoginError::Request` by the derived conversion, session.rs lines 20-25);
`stateful-chain` threads the state into the next step and short-circuits on
a prior error. The two transport steps (the auth-info request and the proof
submission) and the local SRP computation are abstracted as outcome
parameters. -/

/-- `map_human_verification_err` (session.rs, lines 370-378): an
`APIError`-backed request error whose payload carries human-verification
details becomes `HumanVerificationRequired`; every other error is returned
unchanged. -/
def map_human_verification_err (e : LoginError) : LoginError :=
  match e with
  | .Request (.API a) =>
    match a.try_get_human_verification_details with
    | some hv => .HumanVerificationRequired hv
    | none => e
  | _ => e

/-- The response to the auth-info request: the per-username SRP challenge
data, abstracted to what the pipeline threads through. -/
structure AuthInfoResponse where
  version : Nat
  salt : String
  modulus : String
  server_ephemeral : String
  srp_session : String
  deriving Repr, DecidableEq

/-- The outcome of `login_sequence_2` (session.rs, lines 420-434): the proof
submission's response is validated with `validate_server_proof` and that
validation's error is passed through `map_human_verification_err`; an error
of the submission request itself passes through the `map` combinator
untouched, wrapped as `LoginError.Request`. -/
def login_sequence_2_outcome (proof : SRPProofB64)
    (authResult : Except HttpError AuthResponse) :
    Except LoginError SessionType :=
  match authResult with
  | .error e => .error (.Request e)
  | .ok auth_response =>
    (validate_server_proof proof auth_response).mapError
      map_human_verification_err

/-- The outcome of the full login sequence (`login_sequence_1`, session.rs,
lines 436-443): the auth-info request, then `generate_login_state` (whose
SRP-engine failure becomes `LoginError.SRPProof`, session.rs lines 393-418,
abstracted as the outcome parameter `srpCompute`), then the proof
submission step. -/
def login_sequence_1_outcome
    (authInfoResult : Except HttpError AuthInfoResponse)
    (srpCompute : AuthInfoResponse → Except String SRPProofB64)
    (authResult : Except HttpError AuthResponse) :
    Except LoginError SessionType :=
  match authInfoResult with
  | .error e => .error (.Request e)
  | .ok info =>
    match srpCompute info with
    | .error msg => .error (.SRPProof msg)
    | .ok proof => login_sequence_2_outcome proof authResult

/-! ## Theorems for C6 -/

/-- No run of the login pipeline ever produces `HumanVerificationRequired`:
`map_human_verification_err` is applied only to `validate_server_proof`'s
errors — which are never `Request` errors — while the transport steps'
errors pass through the `map` combinator untouched. -/
lemma login_outcome_never_human_verification
    (authInfoResult : Except HttpError AuthInfoResponse)
    (srpCompute : AuthInfoResponse → Except String SRPProofB64)
    (authResult : Except HttpError AuthResponse)
    (hv : HumanVerification) :
    login_sequence_1_outcome authInfoResult srpCompute authResult
      ≠ .error (.HumanVerificationRequired hv) := by
  unfold login_sequence_1_outcome
  cases authInfoResult with
  | error e => simp
  | ok info =>
    dsimp only
    cases srpCompute info with
    | error msg => simp
    | ok proof =>
      dsimp only
      unfold login_sequence_2_outcome
      cases authResult with
      | error e => simp
      | ok auth_response =>
        dsimp only
        unfold validate_server_proof
        by_cases h : proof.compare_server_proof auth_response.server_proof
        · rw [h]
          cases auth_response.tfa.enabled <;>
            simp [Except.mapError, map_human_verification_err]
        · rw [Bool.not_eq_true] at h
          rw [h]
          simp [Except.mapError, map_human_verification_err]

/-- C6: the code evaluated at the failing inputs. An auth-info request that
fails with an API error carrying human-verification details surfaces as
`LoginError.Request` — not as `LoginError.HumanVerificationRequired` as the
claim requires; the same happens when the proof-submission request fails
with such an error. -/
theorem login_human_verification_not_translated_at_transport_steps :
    login_sequence_1_outcome
        (.error (.API ⟨422, some ⟨["captcha"], "hv-token"⟩⟩))
        (fun _ => .ok ⟨"ce", "cp", "sp"⟩)
        (.ok ⟨"sp", ⟨.None⟩, "u", "a", "r"⟩)
      = .error (.Request (.API ⟨422, some ⟨["captcha"], "hv-token"⟩⟩))
    ∧ login_sequence_1_outcome
        (.ok ⟨4, "salt", "mod", "se", "srp-sess"⟩)
        (fun _ => .ok ⟨"ce", "cp", "sp"⟩)
        (.error (.API ⟨422, some ⟨["captcha"], "hv-token"⟩⟩))
      = .error (.Request (.API ⟨422, some ⟨["captcha"], "hv-token"⟩⟩)) :=
  ⟨rfl, rfl⟩

/-! ## Response decoding (src/http/response.rs)

Each `FromResponse` implementation is embedded twice, once per driver: the
blocking form (`from_response_sync`) and the suspension-based form
(`from_response_async`, whose single awaited body fetch is modelled by the
same body-outcome parameter). JSON parsing (`serde_json::from_slice`) and
lossy UTF-8 decoding (`String::from_utf8_lossy`) are external and passed
as parameters. -/

/-- Marker for the `NoResponse` decoder. -/
structure NoResponse where

/-- `NoResponse::from_response_sync` (response.rs, lines 15-17): ignores the
response and succeeds with the unit value. -/
def NoResponse.from_response_sync
    (_body : Except HttpError (List UInt8)) : Except HttpError Unit :=
  .ok ()

/-- `NoResponse::from_response_async` (response.rs, lines 19-29): the
suspension-based form, likewise succeeding with the unit value. -/
def NoResponse.from_response_async
    (_body : Except HttpError (List UInt8)) : Except HttpError Unit :=
  .ok ()

/-- Marker for the `JsonResponse<T>` decoder. -/
structure JsonResponse (T : Type) where

/-- `JsonResponse::from_response_sync` (response.rs, lines 37-41): fetch the
body, then parse it as JSON. -/
def JsonResponse.from_response_sync {T : Type}
    (parse : List UInt8 → Except HttpError T)
    (body : Except HttpError (List UInt8)) : Except HttpError T :=
  match body with
  | .error e => .error e
  | .ok b => parse b

/-- `JsonResponse::from_response_async` (response.rs, lines 43-61): await the
body, then parse it as JSON. -/
def JsonResponse.from_response_async {T : Type}
    (parse : List UInt8 → Except HttpError T)
    (body : Except HttpError (List UInt8)) : Except HttpError T :=
  match body with
  | .error e => .error e
  | .ok b => parse b

/-- Marker for the `StringResponse` decoder. -/
structure StringResponse where

/-- `StringResponse::from_response_sync` (response.rs, lines 70-73): fetch
the body and decode it as lossy UTF-8. -/
def StringResponse.from_response_sync
    (lossy : List UInt8 → String)
    (body : Except HttpError (List UInt8)) : Except HttpError String :=
  match body with
  | .error e => .error e
  | .ok b => .ok (lossy b)

/-- `StringResponse::from_response_async` (response.rs, lines 75-91): await
the body and decode it as lossy UTF-8. -/
def StringResponse.from_response_async
    (lossy : List UInt8 → String)
    (body : Except HttpError (List UInt8)) : Except HttpError String :=
  match body with
  | .error e => .error e
  | .ok b => .ok (lossy b)

/-- Marker for the `BinaryResponse` decoder. -/
structure BinaryResponse where

/-- `BinaryResponse::from_response_sync` (response.rs, lines 102-105): fetch
the body and return its raw bytes. -/
def BinaryResponse.from_response_sync
    (body : Except HttpError (List UInt8)) : Except HttpError (List UInt8) :=
  match body with
  | .error e => .error e
  | .ok b => .ok b

/-- `BinaryResponse::from_response_async` (response.rs, lines 107-123): await
the body and return its raw bytes. -/
def BinaryResponse.from_response_async
    (body : Except HttpError (List UInt8)) : Except HttpError (List UInt8) :=
  match body with
  | .error e => .error e
  | .ok b => .ok b

/-- C7: for every response body outcome, the blocking and the
suspension-based decodings agree — for each of the four `FromResponse`
implementations, `from_response_sync` and `from_response_async` applied to
the same body yield the same success value or the same error, so one
sequence definition yields identical observable results under both
drivers. -/
theorem from_response_sync_async_agree :
    (∀ body : Except HttpError (List UInt8),
      NoResponse.from_response_sync body = NoResponse.from_response_async body)
    ∧ (∀ (T : Type) (parse : List UInt8 → Except HttpError T)
        (body : Except HttpError (List UInt8)),
        JsonResponse.from_response_sync parse body
          = JsonResponse.from_response_async parse body)
    ∧ (∀ (lossy : List UInt8 → String)
        (body : Except HttpError (List UInt8)),
        StringResponse.from_response_sync lossy body
          = StringResponse.from_response_async lossy body)
    ∧ (∀ body : Except HttpError (List UInt8),
        BinaryResponse.from_response_sync body
          = BinaryResponse.from_response_async body) := by
  refine ⟨fun body => rfl, fun T parse body => ?_, fun lossy body => ?_,
    fun body => ?_⟩ <;> cases body <;> rfl

/-! ## Session snapshot (session.rs, lines 36-49 and 132-138) -/

/-- `SessionRefreshData` (session.rs, lines 36-40): the persistable
{user identifier, refresh token} pair. Both fields are secrets. -/
structure SessionRefreshData where
  user_uid : String
  token : String
  deriving DecidableEq

/-- `SessionRefreshData::eq` (session.rs, lines 42-47): equality compares the
two pairs by exposing the secret contents. -/
def SessionRefreshData.eqByExposing (a b : SessionRefreshData) : Bool :=
  a.user_uid == b.user_uid && a.token == b.token

/-- `Session::get_refresh_data` (session.rs, lines 132-138): read the uid and
refresh token out of the credentials cell under one read acquisition. -/
def Session.get_refresh_data (s : Session) : SessionRefreshData :=
  { user_uid := s.user_auth.uid
    token := s.user_auth.refresh_token }

/-- Modelled from the spec ("never rendered in default textual/debug
output"): the debug form of a `secrecy::Secret` wrapper, a fixed redaction
placeholder that does not consult the wrapped value. `SessionRefreshData`
itself derives no textual rendering at all in the source; any rendering
reachable from it goes through its two `Secret` fields. -/
def secretDebugFmt (_secret : String) : String :=
  "Secret([REDACTED])"

/-- The debug rendering a derived formatter would produce for a
`SessionRefreshData`: the field renderings are those of its `Secret`
fields. -/
def SessionRefreshData.debugFmt (d : SessionRefreshData) : String :=
  "SessionRefreshData(user_uid: " ++ secretDebugFmt d.user_uid
    ++ ", token: " ++ secretDebugFmt d.token ++ ")"

/-- C8: the textual/debug rendering of the session snapshot is independent
of the secret values it wraps — two sessions with arbitrary, distinct
uid/refresh-token secrets render identically, and the rendering equals a
fixed constant — so the rendering carries no secret content for any
possible secret value. -/
theorem session_refresh_data_debug_leaks_nothing :
    (∀ s t : Session,
      (Session.get_refresh_data s).debugFmt
        = (Session.get_refresh_data t).debugFmt)
    ∧ ∀ s : Session,
        (Session.get_refresh_data s).debugFmt
          = "SessionRefreshData(user_uid: Secret([REDACTED]), "
              ++ "token: Secret([REDACTED]))" := by
  constructor
  · intro s t
    rfl
  · intro s
    rfl

/-! ## Session::refresh as allocation (session.rs, lines 64-69 and 93-103)

`Session::new` wraps credentials in a freshly allocated shared cell
(`Arc::new(RwLock::new(user))`). To reason about aliasing, cells are
modelled as slots of a store; a session handle is the index of its cell. -/

/-- The result of allocating a session handle: the new handle and the
updated cell store. -/
structure AllocResult where
  handle : Nat
  store : List UserAuth
  deriving Repr, DecidableEq

/-- `Session::new` (session.rs, lines 64-69): allocate a fresh cell holding
the given credentials. -/
def Session.new_alloc (user : UserAuth) (store : List UserAuth) : AllocResult :=
  { handle := store.length
    store := store ++ [user] }

/-- `Session::refresh` (session.rs, lines 93-103): execute a refresh request
(its successful response is the parameter) and build a brand-new session
from that response alone via `Session::new`. -/
def Session.refresh_alloc (resp : AuthRefreshResponse)
    (store : List UserAuth) : AllocResult :=
  Session.new_alloc (UserAuth.from_auth_refresh_response resp) store

/-- C9: on success, `Session::refresh` returns a session holding a freshly
created credentials cell built solely from the refresh response: the new
handle lies outside the existing store, every previously existing cell is
left exactly as it was, the new cell's content is the triple from the
refresh response, and that content does not depend on any existing cell
(two runs over arbitrary different stores produce the same credentials). -/
theorem session_refresh_allocates_fresh_cell
    (resp : AuthRefreshResponse) (store : List UserAuth) :
    (Session.refresh_alloc resp store).handle = store.length
    ∧ ((Session.refresh_alloc resp store).store.take store.length = store)
    ∧ (Session.refresh_alloc resp store).store.get?
          (Session.refresh_alloc resp store).handle
        = some (UserAuth.from_auth_refresh_response resp)
    ∧ ∀ store' : List UserAuth,
        (Session.refresh_alloc resp store).store.get?
            (Session.refresh_alloc resp store).handle
          = (Session.refresh_alloc resp store').store.get?
              (Session.refresh_alloc resp store').handle := by
  refine ⟨rfl, ?_, ?_, ?_⟩
  · exact List.take_left store [UserAuth.from_auth_refresh_response resp]
  · simp [Session.refresh_alloc, Session.new_alloc]
  · intro store'
    simp [Session.refresh_alloc, Session.new_alloc]

/-! ## GetMessagesRequest::build
(src/requests/messages.rs, lines 39-70; src/domain/message.rs for the
filter) -/

/-- The HTTP method of a request descriptor (`http::Method`). -/
inductive Method where
  | Get
  | Put
  | Post
  deriving Repr, DecidableEq

/-- The built request: method and path (with query string), as produced by
`RequestData::new`. -/
structure RequestData where
  method : Method
  path : String
  deriving Repr, DecidableEq

/-- `MessageFilter` (message.rs, lines 380-408), with all seven fields. The
`desc` flag's payload only matters through `is_some`, so it is a `Bool`. -/
structure MessageFilter where
  label_id : Option String
  page : Option Nat
  page_size : Option Nat
  desc : Option Bool
  end_id : Option String
  subject : Option String
  address_id : Option String
  deriving Repr, DecidableEq

/-- `GetMessagesRequest` (messages.rs, lines 16-18). -/
structure GetMessagesRequest where
  filter : MessageFilter
  deriving Repr, DecidableEq

/-- The query parts pushed by `GetMessagesRequest::build` (messages.rs,
lines 44-60), in push order. -/
def GetMessagesRequest.query_parts (r : GetMessagesRequest) : List String :=
  (match r.filter.label_id with
    | some label_id => ["LabelID=" ++ label_id]
    | none => [])
  ++ (match r.filter.page with
    | some page => ["Page=" ++ toString page]
    | none => [])
  ++ (match r.filter.page_size with
    | some page_size => ["PageSize=" ++ toString page_size]
    | none => [])
  ++ (match r.filter.end_id with
    | some end_id => ["EndID=" ++ end_id]
    | none => [])
  ++ (if r.filter.desc.isSome then ["Desc=1"] else [])

/-- `GetMessagesRequest::build` (messages.rs, lines 43-69): join the query
parts onto the messages path. -/
def GetMessagesRequest.build (r : GetMessagesRequest) : RequestData :=
  let query_parts := r.query_parts
  let path :=
    if query_parts.isEmpty then
      "mail/v4/messages"
    else
      "mail/v4/messages?" ++ String.intercalate "&" query_parts
  { method := .Get, path := path }

/-- The claim's description of the serialized filter: exactly the label_id,
page, page_size, end_id and desc fields, in that order, with desc rendered
as `Desc=1` whenever it is set. -/
def claimedMessageQueryParts (f : MessageFilter) : List String :=
  (f.label_id.map (fun l => "LabelID=" ++ l)).toList
  ++ (f.page.map (fun p => "Page=" ++ toString p)).toList
  ++ (f.page_size.map (fun p => "PageSize=" ++ toString p)).toList
  ++ (f.end_id.map (fun e => "EndID=" ++ e)).toList
  ++ (if f.desc.isSome then ["Desc=1"] else [])

/-- C10: `GetMessagesRequest::build` serializes only the label_id, page,
page_size, end_id and desc fields, in that order, with desc rendered as
`Desc=1` whenever it is set regardless of its boolean payload; the subject
and address_id fields never influence the built request. -/
theorem getMessagesRequest_build_serializes_five_fields
    (f : MessageFilter) :
    (∀ s a : Option String,
      GetMessagesRequest.build ⟨{ f with subject := s, address_id := a }⟩
        = GetMessagesRequest.build ⟨f⟩)
    ∧ GetMessagesRequest.query_parts ⟨f⟩ = claimedMessageQueryParts f
    ∧ (GetMessagesRequest.build ⟨f⟩).path
        = (if (claimedMessageQueryParts f).isEmpty then
            "mail/v4/messages"
          else
            "mail/v4/messages?"
              ++ String.intercalate "&" (claimedMessageQueryParts f))
    ∧ (GetMessagesRequest.build ⟨f⟩).method = .Get := by
  have hparts : GetMessagesRequest.query_parts ⟨f⟩ = claimedMessageQueryParts f := by
    unfold GetMessagesRequest.query_parts claimedMessageQueryParts
    cases f.label_id <;> cases f.page <;> cases f.page_size <;>
      cases f.end_id <;> rfl
  refine ⟨fun s a => rfl, hparts, ?_, rfl⟩
  unfold GetMessagesRequest.build
  rw [hparts]
